import Mathlib

/-!
Shallow embedding of `src/CapyBot.py` (class `AutoReactBot`), a Telegram
sticker-reaction bot built on `telebot`.  The backend (Telegram API) is
modelled as injectable per-call outcomes: each outbound call either succeeds
or raises an exception.  Handlers are translated to pure functions that
return the trace of outbound calls and log entries they produce, together
with any exception that escapes them.
-/

set_option autoImplicit false

/-- Whether the character list `n` is an initial segment of `h`
(models the start of a Python substring scan). -/
def leadsWith : List Char → List Char → Bool
  | [], _ => true
  | _ :: _, [] => false
  | a :: as, b :: bs => a == b && leadsWith as bs

/-- Whether the character list `n` occurs contiguously inside `h`. -/
def occursInChars (n : List Char) : List Char → Bool
  | [] => leadsWith n []
  | h :: hs => leadsWith n (h :: hs) || occursInChars n hs

/-- Python's `needle in haystack` operator on strings: substring containment. -/
def occursIn (needle haystack : String) : Bool :=
  occursInChars needle.data haystack.data

/-- Severity levels used by the bot via the `logging` module. -/
inductive LogLevel where
  | info
  | warning
  | error
  deriving BEq, DecidableEq, Repr

/-- A single line sent to the logger: severity plus rendered message. -/
structure LogEntry where
  level : LogLevel
  msg : String
  deriving BEq, DecidableEq, Repr

/-- Exceptions (Python `Exception` subclasses) that the telebot backend calls
can raise: `telebot.apihelper.ApiTelegramException`, or any other
`Exception`.  `str(e)` is modelled by the carried message string. -/
inductive PyExn where
  | apiTelegramException (msg : String)
  | otherException (msg : String)
  deriving BEq, DecidableEq, Repr

/-- Python's `str(e)` / f-string interpolation of an exception. -/
def exnStr : PyExn → String
  | .apiTelegramException msg => msg
  | .otherException msg => msg

/-- `telebot.types.Sticker`, restricted to the field the bot reads. -/
structure Sticker where
  file_unique_id : String
  deriving BEq, DecidableEq, Repr

/-- `telebot.types.Chat`, restricted to the field the bot reads. -/
structure Chat where
  id : Int
  deriving BEq, DecidableEq, Repr

/-- `telebot.types.Message`, restricted to the fields the bot reads.
`sticker = none` models a message whose content type is not `sticker`. -/
structure Message where
  chat : Chat
  message_id : Int
  sticker : Option Sticker
  deriving BEq, DecidableEq, Repr

/-- `telebot.types.ReactionTypeEmoji`: an emoji reaction payload. -/
structure ReactionTypeEmoji where
  emoji : String
  deriving BEq, DecidableEq, Repr

/-- The result of `bot.get_me()`, restricted to the field the bot reads. -/
structure BotUser where
  username : String
  deriving BEq, DecidableEq, Repr

/-- An outbound Telegram API call made by the bot, with its arguments. -/
inductive OutCall where
  | set_message_reaction (chat_id : Int) (message_id : Int)
      (reaction : List ReactionTypeEmoji) (is_big : Bool)
  | send_message (chat_id : Int) (text : String) (reply_to_message_id : Int)
  deriving BEq, DecidableEq, Repr

/-- Whether an outbound call is a reaction-attach (`set_message_reaction`). -/
def OutCall.isSetReaction : OutCall → Bool
  | .set_message_reaction _ _ _ _ => true
  | .send_message _ _ _ => false

/-- Whether an outbound call is a reply-send (`send_message`). -/
def OutCall.isSend : OutCall → Bool
  | .set_message_reaction _ _ _ _ => false
  | .send_message _ _ _ => true

/-- Whether an outbound call references the given chat id and message id
(the message id of a reply-send is its `reply_to_message_id`). -/
def OutCall.refs (c : OutCall) (chat mid : Int) : Bool :=
  match c with
  | .set_message_reaction ch m _ _ => ch == chat && m == mid
  | .send_message ch _ reply => ch == chat && reply == mid

/-- Number of reaction-attach calls in a trace. -/
def countSetReaction (cs : List OutCall) : Nat :=
  (cs.filter OutCall.isSetReaction).length

/-- Number of reply-send calls in a trace. -/
def countSend (cs : List OutCall) : Nat :=
  (cs.filter OutCall.isSend).length

/-- The configuration state of an `AutoReactBot` instance
(`self.target_sticker_ids`, `self.reaction_emoji`). -/
structure AutoReactBot where
  target_sticker_ids : List String
  reaction_emoji : String
  deriving BEq, DecidableEq, Repr

/-- The backend's behaviour for one handler run: the outcome of each
outbound call the bot may issue (`none` = success, `some e` = the call
raises `e`).  Arguments mirror the Python call sites. -/
structure Backend where
  set_message_reaction : Int → Int → List ReactionTypeEmoji → Bool → Option PyExn
  send_message : Int → String → Int → Option PyExn

/-- Result of running a piece of bot code: the outbound calls it issued in
order, the log entries it emitted in order, and the exception escaping it
(`none` when it returns normally). -/
structure RunResult where
  calls : List OutCall
  logs : List LogEntry
  exn : Option PyExn
  deriving BEq, DecidableEq, Repr

/-- The fixed reply text sent after a successful reaction
(line 70 of `CapyBot.py`). -/
def replyText : String := "Хейтер обнаружен! Атакую!"

/-- The `except` chain of `_add_reaction` (lines 72-83): classify an
exception raised inside the `try` block into one log entry.
`ApiTelegramException` is matched first and classified by substring tests
on `str(e)` with `if/elif` precedence; every other `Exception` falls to the
generic `except Exception` clause. -/
def handleExn (self : AutoReactBot) (e : PyExn) : LogEntry :=
  match e with
  | .apiTelegramException m =>
      let error_msg := m
      if occursIn "Forbidden" error_msg then
        ⟨.warning, "Bot lacks permission to add reactions or send messages in this chat"⟩
      else if occursIn "REACTION_INVALID" error_msg then
        ⟨.warning, "Emoji " ++ self.reaction_emoji ++ " not supported for reactions"⟩
      else if occursIn "message not found" error_msg then
        ⟨.warning, "Message too old or deleted"⟩
      else
        ⟨.error, "Failed to add reaction or send message: " ++ error_msg⟩
  | .otherException m =>
      ⟨.error, "Unexpected error adding reaction or sending message: " ++ m⟩

/-- The `try` block of `_add_reaction` (lines 57-70): attach the reaction,
and only if that call returned normally, log success and send the reply.
An exception from either call escapes the block (field `exn`). -/
def add_reaction_try (self : AutoReactBot) (be : Backend)
    (chat_id message_id : Int) : RunResult :=
  let reaction := ReactionTypeEmoji.mk self.reaction_emoji
  let c1 := OutCall.set_message_reaction chat_id message_id [reaction] false
  match be.set_message_reaction chat_id message_id [reaction] false with
  | some e => { calls := [c1], logs := [], exn := some e }
  | none =>
      let lOk : LogEntry :=
        ⟨.info, "✅ Reaction added successfully: " ++ self.reaction_emoji⟩
      let c2 := OutCall.send_message chat_id replyText message_id
      match be.send_message chat_id replyText message_id with
      | some e => { calls := [c1, c2], logs := [lOk], exn := some e }
      | none => { calls := [c1, c2], logs := [lOk], exn := none }

/-- `AutoReactBot._add_reaction` (lines 55-83): the `try` block, with any
escaping exception caught and classified by the `except` chain. -/
def add_reaction (self : AutoReactBot) (be : Backend)
    (chat_id message_id : Int) : RunResult :=
  let r := add_reaction_try self be chat_id message_id
  match r.exn with
  | none => r
  | some e => { calls := r.calls, logs := r.logs ++ [handleExn self e], exn := none }

/-- The `handle_sticker` handler (lines 46-53) together with telebot's
dispatch: the handler is registered for content type `sticker` only, so a
message without a sticker payload is discarded with no action.  For a
sticker message, `_add_reaction` runs exactly when the sticker's
`file_unique_id` is a member of `self.target_sticker_ids`. -/
def handle_sticker (self : AutoReactBot) (be : Backend) (message : Message) :
    RunResult :=
  match message.sticker with
  | none => { calls := [], logs := [], exn := none }
  | some sticker =>
      if self.target_sticker_ids.contains sticker.file_unique_id then
        let l0 : LogEntry :=
          ⟨.info, "Target sticker detected in chat " ++ toString message.chat.id⟩
        let r := add_reaction self be message.chat.id message.message_id
        { r with logs := l0 :: r.logs }
      else
        { calls := [], logs := [], exn := none }

/-- Outcome of the blocking `bot.polling(...)` call in `start`: it returns
normally, is interrupted by Ctrl-C (`KeyboardInterrupt`, a `BaseException`
that `except Exception` does not catch), or raises an `Exception`. -/
inductive PollOutcome where
  | ok
  | keyboardInterrupt
  | raised (e : PyExn)
  deriving BEq, DecidableEq, Repr

/-- `AutoReactBot.start` (lines 85-101): log the two banner lines, poll,
and on failure either log graceful shutdown (`KeyboardInterrupt`) or log
the error and re-raise it.  Returns the log trace and the exception that
propagates out of `start` (`none` = returns normally). -/
def start (self : AutoReactBot) (poll : PollOutcome) :
    List LogEntry × Option PyExn :=
  let pre : List LogEntry :=
    [⟨.info, "🚀 Auto-react bot is running..."⟩,
     ⟨.info, "Add me to groups and I\x27ll automatically react to your target stickers!"⟩]
  match poll with
  | .ok => (pre, none)
  | .keyboardInterrupt => (pre ++ [⟨.info, "Bot stopped by user"⟩], none)
  | .raised e => (pre ++ [⟨.error, "Bot error: " ++ exnStr e⟩], some e)

/-- The startup identity-lookup block of `AutoReactBot.__init__`
(lines 34-41): `get_me` either returns the bot's identity (three info
lines) or raises, in which case the failure is logged at error level and
caught by `except Exception`.  Returns the log trace and the exception
propagating out of the block (`none` = the constructor completes). -/
def init_bot_info (self : AutoReactBot) (get_me : Except PyExn BotUser) :
    List LogEntry × Option PyExn :=
  match get_me with
  | .ok bot_info =>
      ([⟨.info, "Bot started: @" ++ bot_info.username⟩,
        ⟨.info, "Watching for sticker IDs: " ++ toString self.target_sticker_ids⟩,
        ⟨.info, "Will react with: " ++ self.reaction_emoji⟩], none)
  | .error e =>
      ([⟨.error, "Failed to get bot info: " ++ exnStr e⟩], none)

/-- `TARGET_STICKER_IDS` from `main()` (lines 112-116). -/
def TARGET_STICKER_IDS : List String :=
  ["AgADZwADuRtZCw", "AgADLXUAAkw0aEk", "AgADtnYAAuLomUs"]

/-- `REACTION_EMOJI` from `main()` (line 117). -/
def REACTION_EMOJI : String := "👎"

/-- The bot instance constructed in `main()` (lines 120-124). -/
def mainBot : AutoReactBot :=
  { target_sticker_ids := TARGET_STICKER_IDS, reaction_emoji := REACTION_EMOJI }

/-- A backend on which every outbound call succeeds. -/
def okBackend : Backend :=
  { set_message_reaction := fun _ _ _ _ => none,
    send_message := fun _ _ _ => none }

/-- Spec-side severity map for backend failures: the three named causes
(permission-denied via "Forbidden", unsupported-reaction via
"REACTION_INVALID", target-gone via "message not found") are warnings;
every other backend error is unclassified and logged at error level. -/
def specSeverity : PyExn → LogLevel
  | .apiTelegramException m =>
      if occursIn "Forbidden" m || occursIn "REACTION_INVALID" m
          || occursIn "message not found" m then
        .warning
      else
        .error
  | .otherException _ => .error

/-- Whether a log entry reports a failure (warning or error level). -/
def isFailureLog (l : LogEntry) : Bool :=
  match l.level with
  | .info => false
  | .warning => true
  | .error => true

/-- Number of failure-level (warning or error) entries in a log trace. -/
def countFailureLogs (ls : List LogEntry) : Nat :=
  (ls.filter isFailureLog).length

/-- C1: for every inbound sticker message whose `file_unique_id` is in the
configured target set, the handler issues exactly one reaction-attach call
and, conditionally on that call succeeding, exactly one reply-send call;
every issued call references the chat id and message id of the triggering
message. -/
theorem c1_target_sticker_react_then_reply (self : AutoReactBot) (be : Backend)
    (message : Message) (s : Sticker)
    (hs : message.sticker = some s)
    (hm : self.target_sticker_ids.contains s.file_unique_id = true) :
    countSetReaction (handle_sticker self be message).calls = 1 ∧
    (be.set_message_reaction message.chat.id message.message_id
        [ReactionTypeEmoji.mk self.reaction_emoji] false = none →
      countSend (handle_sticker self be message).calls = 1) ∧
    ∀ c ∈ (handle_sticker self be message).calls,
      c.refs message.chat.id message.message_id = true := by
  have hmem : s.file_unique_id ∈ self.target_sticker_ids := by simpa using hm
  cases hset : be.set_message_reaction message.chat.id message.message_id
      [ReactionTypeEmoji.mk self.reaction_emoji] false with
  | none =>
    cases hsend : be.send_message message.chat.id replyText message.message_id with
    | none =>
      simp [handle_sticker, add_reaction, add_reaction_try, hs, hmem, hset, hsend,
        countSetReaction, countSend, OutCall.isSetReaction, OutCall.isSend, OutCall.refs]
    | some e =>
      simp [handle_sticker, add_reaction, add_reaction_try, hs, hmem, hset, hsend,
        countSetReaction, countSend, OutCall.isSetReaction, OutCall.isSend, OutCall.refs]
  | some e =>
    simp [handle_sticker, add_reaction, add_reaction_try, hs, hmem, hset,
      countSetReaction, countSend, OutCall.isSetReaction, OutCall.isSend, OutCall.refs]

/-- Witness for C1 at a concrete matching message and an all-success
backend. -/
theorem c1_witness :
    ((Message.mk ⟨5⟩ 9 (some ⟨"idA"⟩)).sticker = some ⟨"idA"⟩ ∧
      (AutoReactBot.mk ["idA"] "👎").target_sticker_ids.contains "idA" = true) ∧
    (countSetReaction
        (handle_sticker ⟨["idA"], "👎"⟩ okBackend ⟨⟨5⟩, 9, some ⟨"idA"⟩⟩).calls = 1 ∧
      (okBackend.set_message_reaction 5 9 [ReactionTypeEmoji.mk "👎"] false = none →
        countSend
          (handle_sticker ⟨["idA"], "👎"⟩ okBackend ⟨⟨5⟩, 9, some ⟨"idA"⟩⟩).calls = 1) ∧
      ∀ c ∈ (handle_sticker ⟨["idA"], "👎"⟩ okBackend ⟨⟨5⟩, 9, some ⟨"idA"⟩⟩).calls,
        c.refs 5 9 = true) :=
  ⟨⟨rfl, by decide⟩,
    c1_target_sticker_react_then_reply ⟨["idA"], "👎"⟩ okBackend
      ⟨⟨5⟩, 9, some ⟨"idA"⟩⟩ ⟨"idA"⟩ rfl (by decide)⟩

/-- C2: a non-sticker message, or a sticker message whose unique id is not
in the target set, produces no outbound call, no log entry, and no
exception: the handler run is completely inert. -/
theorem c2_nonmatch_no_action (self : AutoReactBot) (be : Backend)
    (message : Message)
    (h : ∀ s, message.sticker = some s →
      self.target_sticker_ids.contains s.file_unique_id = false) :
    handle_sticker self be message = ⟨[], [], none⟩ := by
  unfold handle_sticker
  cases hs : message.sticker with
  | none => rfl
  | some s =>
    have hmem : s.file_unique_id ∉ self.target_sticker_ids := by
      simpa using h s hs
    simp [hmem]

/-- Witness for C2 at a concrete sticker message outside the target set. -/
theorem c2_witness :
    (∀ s, (Message.mk ⟨3⟩ 4 (some ⟨"unknown123"⟩)).sticker = some s →
      (AutoReactBot.mk ["idA"] "👎").target_sticker_ids.contains s.file_unique_id = false) ∧
    handle_sticker ⟨["idA"], "👎"⟩ okBackend ⟨⟨3⟩, 4, some ⟨"unknown123"⟩⟩ = ⟨[], [], none⟩ :=
  ⟨fun s hs => by cases hs; decide,
    c2_nonmatch_no_action ⟨["idA"], "👎"⟩ okBackend ⟨⟨3⟩, 4, some ⟨"unknown123"⟩⟩
      (fun s hs => by cases hs; decide)⟩

/-- C3: when the reaction-attach call raises, the reply-send call is never
made: the trace of `_add_reaction` is exactly the one failed
reaction-attach call. -/
theorem c3_reaction_failure_gates_reply (self : AutoReactBot) (be : Backend)
    (chat_id message_id : Int) (e : PyExn)
    (h : be.set_message_reaction chat_id message_id
      [ReactionTypeEmoji.mk self.reaction_emoji] false = some e) :
    countSend (add_reaction self be chat_id message_id).calls = 0 ∧
    (add_reaction self be chat_id message_id).calls =
      [OutCall.set_message_reaction chat_id message_id
        [ReactionTypeEmoji.mk self.reaction_emoji] false] := by
  simp [add_reaction, add_reaction_try, h, countSend, OutCall.isSend]

/-- Witness for C3 at a concrete backend whose reaction-attach call raises
a permission error. -/
theorem c3_witness :
    (Backend.mk (fun _ _ _ _ => some (.apiTelegramException "Forbidden: no rights"))
          (fun _ _ _ => none)).set_message_reaction 1 2
        [ReactionTypeEmoji.mk "👎"] false =
      some (.apiTelegramException "Forbidden: no rights") ∧
    (countSend (add_reaction ⟨["idA"], "👎"⟩
        ⟨fun _ _ _ _ => some (.apiTelegramException "Forbidden: no rights"),
          fun _ _ _ => none⟩ 1 2).calls = 0 ∧
      (add_reaction ⟨["idA"], "👎"⟩
          ⟨fun _ _ _ _ => some (.apiTelegramException "Forbidden: no rights"),
            fun _ _ _ => none⟩ 1 2).calls =
        [OutCall.set_message_reaction 1 2 [ReactionTypeEmoji.mk "👎"] false]) :=
  ⟨rfl,
    c3_reaction_failure_gates_reply ⟨["idA"], "👎"⟩
      ⟨fun _ _ _ _ => some (.apiTelegramException "Forbidden: no rights"),
        fun _ _ _ => none⟩ 1 2 (.apiTelegramException "Forbidden: no rights") rfl⟩

/-- C5: `_add_reaction` never lets an exception escape (every `Exception`
raised by either outbound call is caught by its `except` chain) and never
retries: for every backend behaviour it returns normally having issued
exactly one reaction-attach call. -/
theorem c5_add_reaction_swallows_all (self : AutoReactBot) (be : Backend)
    (chat_id message_id : Int) :
    (add_reaction self be chat_id message_id).exn = none ∧
    countSetReaction (add_reaction self be chat_id message_id).calls = 1 := by
  cases hset : be.set_message_reaction chat_id message_id
      [ReactionTypeEmoji.mk self.reaction_emoji] false with
  | none =>
    cases hsend : be.send_message chat_id replyText message_id with
    | none =>
      simp [add_reaction, add_reaction_try, hset, hsend, countSetReaction,
        OutCall.isSetReaction]
    | some e =>
      simp [add_reaction, add_reaction_try, hset, hsend, countSetReaction,
        OutCall.isSetReaction]
  | some e =>
    simp [add_reaction, add_reaction_try, hset, countSetReaction,
      OutCall.isSetReaction]

/-- An info-level log entry is not a failure log. -/
theorem isFailureLog_info (s : String) : isFailureLog ⟨.info, s⟩ = false := rfl

/-- Every exception classified by the `except` chain yields a failure-level
(warning or error) log entry. -/
theorem handleExn_isFailure (self : AutoReactBot) (e : PyExn) :
    isFailureLog (handleExn self e) = true := by
  cases e with
  | apiTelegramException m =>
      simp only [handleExn, isFailureLog]
      split_ifs <;> rfl
  | otherException m => rfl

/-- The severity chosen by the `except` chain agrees with the spec-side
severity map: warning for the three named causes, error otherwise. -/
theorem handleExn_level (self : AutoReactBot) (e : PyExn) :
    (handleExn self e).level = specSeverity e := by
  cases e with
  | apiTelegramException m =>
      simp only [handleExn, specSeverity]
      split_ifs with h1 h2 h3 <;> simp_all
  | otherException m => rfl

/-- C4: every backend failure raised inside `_add_reaction` (by either
outbound call) produces exactly one failure-level log entry, namely the one
chosen by the classification chain, and its severity matches the spec map:
warning for permission-denied ("Forbidden"), unsupported-reaction
("REACTION_INVALID") and target-gone ("message not found"); error for every
other backend error. -/
theorem c4_failure_logged_once (self : AutoReactBot) (be : Backend)
    (chat_id message_id : Int) (e : PyExn)
    (h : be.set_message_reaction chat_id message_id
        [ReactionTypeEmoji.mk self.reaction_emoji] false = some e ∨
      (be.set_message_reaction chat_id message_id
          [ReactionTypeEmoji.mk self.reaction_emoji] false = none ∧
        be.send_message chat_id replyText message_id = some e)) :
    (add_reaction self be chat_id message_id).logs.filter isFailureLog =
      [handleExn self e] ∧
    (handleExn self e).level = specSeverity e := by
  refine ⟨?_, handleExn_level self e⟩
  rcases h with hset | ⟨hset, hsend⟩
  · simp [add_reaction, add_reaction_try, hset, List.filter_cons,
      handleExn_isFailure self e]
  · simp [add_reaction, add_reaction_try, hset, hsend, List.filter_cons,
      handleExn_isFailure self e, isFailureLog_info]

/-- Witness for C4 at a concrete backend whose reply-send call raises an
unclassified error. -/
theorem c4_witness :
    ((Backend.mk (fun _ _ _ _ => none)
          (fun _ _ _ => some (.otherException "boom"))).set_message_reaction 1 2
        [ReactionTypeEmoji.mk "👎"] false =
          some (PyExn.otherException "boom") ∨
      ((Backend.mk (fun _ _ _ _ => none)
            (fun _ _ _ => some (.otherException "boom"))).set_message_reaction 1 2
          [ReactionTypeEmoji.mk "👎"] false = none ∧
        (Backend.mk (fun _ _ _ _ => none)
            (fun _ _ _ => some (.otherException "boom"))).send_message 1 replyText 2 =
          some (PyExn.otherException "boom"))) ∧
    ((add_reaction ⟨["idA"], "👎"⟩
          ⟨fun _ _ _ _ => none, fun _ _ _ => some (.otherException "boom")⟩
          1 2).logs.filter isFailureLog =
        [handleExn ⟨["idA"], "👎"⟩ (.otherException "boom")] ∧
      (handleExn ⟨["idA"], "👎"⟩ (.otherException "boom")).level =
        specSeverity (.otherException "boom")) :=
  ⟨Or.inr ⟨rfl, rfl⟩,
    c4_failure_logged_once ⟨["idA"], "👎"⟩
      ⟨fun _ _ _ _ => none, fun _ _ _ => some (.otherException "boom")⟩
      1 2 (.otherException "boom") (Or.inr ⟨rfl, rfl⟩)⟩

/-- The sticker message of the C6 scenario: unique id "AgADZwADuRtZCw" in
chat 42, message id 7. -/
def scenarioMessage : Message :=
  { chat := ⟨42⟩, message_id := 7, sticker := some ⟨"AgADZwADuRtZCw"⟩ }

/-- C6: under the configuration of `main()`, the scenario sticker produces
exactly the reaction-attach call (chat 42, message 7, single 👎 reaction,
is_big false) followed by the reply-send call (chat 42, the fixed Russian
reply text, reply-target 7), and the run returns normally. -/
theorem c6_main_scenario :
    (handle_sticker mainBot okBackend scenarioMessage).calls =
      [OutCall.set_message_reaction 42 7 [ReactionTypeEmoji.mk "👎"] false,
        OutCall.send_message 42 "Хейтер обнаружен! Атакую!" 7] ∧
    (handle_sticker mainBot okBackend scenarioMessage).exn = none := by
  constructor <;> rfl

/-- C7: if polling raises an exception other than a keyboard interrupt,
`start` emits exactly one failure-level log entry (error level, the fatal
"Bot error" line) and re-raises the exception; a keyboard interrupt is
logged as graceful shutdown ("Bot stopped by user", info level) and not
re-raised, so `start` returns normally. -/
theorem c7_start_error_vs_interrupt (self : AutoReactBot) (e : PyExn) :
    (start self (.raised e)).2 = some e ∧
    (start self (.raised e)).1.filter isFailureLog =
      [⟨.error, "Bot error: " ++ exnStr e⟩] ∧
    (start self .keyboardInterrupt).2 = none ∧
    (start self .keyboardInterrupt).1.filter isFailureLog = [] ∧
    ⟨LogLevel.info, "Bot stopped by user"⟩ ∈ (start self .keyboardInterrupt).1 := by
  refine ⟨rfl, ?_, rfl, ?_, ?_⟩
  · simp [start, isFailureLog, List.filter_cons]
  · simp [start, isFailureLog, List.filter_cons]
  · simp [start]

/-- C8: if `get_me` raises, the constructor block logs exactly one entry,
at error level ("Failed to get bot info"), and completes normally: no
exception propagates out of it. -/
theorem c8_get_me_failure_nonfatal (self : AutoReactBot) (e : PyExn) :
    (init_bot_info self (.error e)).2 = none ∧
    (init_bot_info self (.error e)).1 =
      [⟨.error, "Failed to get bot info: " ++ exnStr e⟩] :=
  ⟨rfl, rfl⟩

/-- C9: classification is decided by substring containment with `if/elif`
precedence: "Forbidden" first, then "REACTION_INVALID", then
"message not found"; an error message containing several of these
substrings is classified by the earliest matching branch only. -/
theorem c9_substring_precedence (self : AutoReactBot) (m : String) :
    (occursIn "Forbidden" m = true →
      handleExn self (.apiTelegramException m) =
        ⟨.warning, "Bot lacks permission to add reactions or send messages in this chat"⟩) ∧
    (occursIn "Forbidden" m = false → occursIn "REACTION_INVALID" m = true →
      handleExn self (.apiTelegramException m) =
        ⟨.warning, "Emoji " ++ self.reaction_emoji ++ " not supported for reactions"⟩) ∧
    (occursIn "Forbidden" m = false → occursIn "REACTION_INVALID" m = false →
      occursIn "message not found" m = true →
      handleExn self (.apiTelegramException m) =
        ⟨.warning, "Message too old or deleted"⟩) ∧
    (occursIn "Forbidden" m = false → occursIn "REACTION_INVALID" m = false →
      occursIn "message not found" m = false →
      handleExn self (.apiTelegramException m) =
        ⟨.error, "Failed to add reaction or send message: " ++ m⟩) :=
  ⟨fun h1 => by simp [handleExn, h1],
    fun h1 h2 => by simp [handleExn, h1, h2],
    fun h1 h2 h3 => by simp [handleExn, h1, h2, h3],
    fun h1 h2 h3 => by simp [handleExn, h1, h2, h3]⟩

/-- Witness for C9: an error message containing both "Forbidden" and
"message not found" is classified as permission-denied, not target-gone. -/
theorem c9_witness :
    occursIn "Forbidden" "Forbidden: message not found" = true ∧
    occursIn "message not found" "Forbidden: message not found" = true ∧
    handleExn ⟨["idA"], "👎"⟩ (.apiTelegramException "Forbidden: message not found") =
      ⟨.warning, "Bot lacks permission to add reactions or send messages in this chat"⟩ :=
  ⟨by decide, by decide,
    (c9_substring_precedence ⟨["idA"], "👎"⟩ "Forbidden: message not found").1 (by decide)⟩

/-- C10: matching is a single membership test on `file_unique_id`: whenever
the sticker's id occurs in `target_sticker_ids` (once or many times), the
handler issues exactly one reaction-attach call, independent of the number
of duplicate occurrences. -/
theorem c10_duplicates_trigger_once (self : AutoReactBot) (be : Backend)
    (message : Message) (s : Sticker)
    (hs : message.sticker = some s)
    (hc : 1 ≤ self.target_sticker_ids.count s.file_unique_id) :
    countSetReaction (handle_sticker self be message).calls = 1 := by
  have hmem : s.file_unique_id ∈ self.target_sticker_ids :=
    List.count_pos_iff.mp hc
  cases hset : be.set_message_reaction message.chat.id message.message_id
      [ReactionTypeEmoji.mk self.reaction_emoji] false with
  | none =>
    cases hsend : be.send_message message.chat.id replyText message.message_id with
    | none =>
      simp [handle_sticker, add_reaction, add_reaction_try, hs, hmem, hset, hsend,
        countSetReaction, OutCall.isSetReaction]
    | some e =>
      simp [handle_sticker, add_reaction, add_reaction_try, hs, hmem, hset, hsend,
        countSetReaction, OutCall.isSetReaction]
  | some e =>
    simp [handle_sticker, add_reaction, add_reaction_try, hs, hmem, hset,
      countSetReaction, OutCall.isSetReaction]

/-- Witness for C10 at a configuration listing the same target id twice
(count 2): still exactly one reaction-attach call. -/
theorem c10_witness :
    (Message.mk ⟨8⟩ 3 (some ⟨"AgADZwADuRtZCw"⟩)).sticker = some ⟨"AgADZwADuRtZCw"⟩ ∧
    1 ≤ (AutoReactBot.mk ["AgADZwADuRtZCw", "AgADZwADuRtZCw"] "👎").target_sticker_ids.count
        "AgADZwADuRtZCw" ∧
    countSetReaction
      (handle_sticker ⟨["AgADZwADuRtZCw", "AgADZwADuRtZCw"], "👎"⟩ okBackend
        ⟨⟨8⟩, 3, some ⟨"AgADZwADuRtZCw"⟩⟩).calls = 1 :=
  ⟨rfl, by decide,
    c10_duplicates_trigger_once ⟨["AgADZwADuRtZCw", "AgADZwADuRtZCw"], "👎"⟩ okBackend
      ⟨⟨8⟩, 3, some ⟨"AgADZwADuRtZCw"⟩⟩ ⟨"AgADZwADuRtZCw"⟩ rfl (by decide)⟩
